/-
Verification of the EU-AI-Nav retrieval-augmented chat core.

This file gives a shallow embedding, in Lean 4, of the core logic of the
repository's backend:

  * `src/backend/retriever.py`  — `Retriever.calculate_relevance_score`,
    `Retriever.retrieve` (k-clamping, unavailable-index behaviour);
  * `src/backend/chatter.py`    — `Chatter._create_default_analysis`,
    `Chatter.preprocess_query`, `Chatter.retrieve_context`,
    `Chatter.generate_response`, `Chatter.handle_irrelevant_query`,
    `Chatter.chat`;
  * `src/backend/app.py`        — the daily counter
    (`get_daily_counter` / `increment_daily_counter` / `check_daily_limit`).

External collaborators (the FAISS similarity search, the two LLM chains)
are modelled as explicit function parameters ("oracles"); a failing model
invocation is an oracle returning `none` (the Python code catches the
exception).  Python floats are modelled by exact rationals `ℚ`; Python
`date.today()` is an explicit `today : ℤ` parameter.  Python string
operations (`lower`, `strip`, `split`, `replace`, `in`) are modelled
character-exactly for ASCII text by the `py*` helpers below, working on
the underlying character list of a `String`.
-/
import Mathlib

namespace EUAINav

/-! ## Python string primitives (ASCII-faithful models) -/

/-- The characters Python's default `str.strip()` / `str.split()` treat as
whitespace: space, tab, newline, carriage return, vertical tab, form feed. -/
def pySpace (c : Char) : Bool :=
  c = ' ' || c = '\t' || c = '\n' || c = '\x0d' || c = '\x0b' || c = '\x0c'

/-- ASCII lowercasing of one character, as Python `str.lower` acts on ASCII. -/
def pyLowerChar (c : Char) : Char :=
  if 'A' ≤ c ∧ c ≤ 'Z' then Char.ofNat (c.toNat + 32) else c

/-- Python `s.lower()` (ASCII fragment). -/
def pyLower (s : String) : String := ⟨s.data.map pyLowerChar⟩

/-- Strip `pySpace` characters from both ends of a character list. -/
def stripList (l : List Char) : List Char :=
  ((l.dropWhile pySpace).reverse.dropWhile pySpace).reverse

/-- Python `s.strip()`. -/
def pyStrip (s : String) : String := ⟨stripList s.data⟩

/-- Does `pat` occur as a contiguous sublist of `hay`?  (Python `pat in hay`
for strings; the empty pattern is contained in everything.) -/
def containsList (hay pat : List Char) : Bool :=
  pat.isEmpty || hay.tails.any (fun t => pat.isPrefixOf t)

/-- Python `pat in hay` substring test. -/
def pyContains (hay pat : String) : Bool := containsList hay.data pat.data

/-- Remove every (leftmost, non-overlapping) occurrence of `pat` from `hay`,
with `fuel` bounding the recursion.  This is Python `hay.replace(pat, "")`
for a non-empty `pat` once `fuel = hay.length`. -/
def removeAllAux (fuel : ℕ) (pat hay : List Char) : List Char :=
  match fuel, hay with
  | 0, h => h
  | _ + 1, [] => []
  | fuel + 1, c :: rest =>
    if ¬ pat.isEmpty ∧ pat.isPrefixOf (c :: rest) then
      removeAllAux fuel pat ((c :: rest).drop pat.length)
    else
      c :: removeAllAux fuel pat rest

/-- Python `s.replace(pat, "")` for non-empty `pat`. -/
def pyRemove (s pat : String) : String :=
  ⟨removeAllAux s.data.length pat.data s.data⟩

/-- Split a character list on runs of `pySpace`, dropping empty pieces:
Python `s.split()` with no argument. -/
def wordsAux (cur : List Char) (acc : List (List Char)) : List Char → List (List Char)
  | [] => if cur.isEmpty then acc.reverse else (cur.reverse :: acc).reverse
  | c :: rest =>
    if pySpace c then
      if cur.isEmpty then wordsAux [] acc rest
      else wordsAux [] (cur.reverse :: acc) rest
    else wordsAux (c :: cur) acc rest

/-- Python `s.split()` (whitespace splitting, no empty pieces). -/
def pyWords (s : String) : List String :=
  (wordsAux [] [] s.data).map (fun l => ⟨l⟩)

/-- Python's binary `min` on rationals, written out so that it evaluates by
kernel reduction. -/
def pyMin (a b : ℚ) : ℚ := if a ≤ b then a else b

/-- Python's binary `min` on integers. -/
def pyMinI (a b : ℤ) : ℤ := if a ≤ b then a else b

/-- Python's binary `max` on integers. -/
def pyMaxI (a b : ℤ) : ℤ := if a ≤ b then b else a

theorem pyMin_eq_min (a b : ℚ) : pyMin a b = min a b := (min_def a b).symm

theorem pyMinI_eq_min (a b : ℤ) : pyMinI a b = min a b := (min_def a b).symm

theorem pyMaxI_eq_max (a b : ℤ) : pyMaxI a b = max a b := (max_def a b).symm

/-! ## Data model -/

/-- A retrieved document (langchain `Document`): page content plus
string-to-string metadata. -/
structure Doc where
  page_content : String
  metadata : List (String × String)
deriving DecidableEq, Repr

/-- The role of one conversation message. -/
inductive Role where
  | user
  | assistant
deriving DecidableEq, Repr

/-- One message of the conversation memory
(`self.memory.chat_memory.messages` holds `HumanMessage` / `AIMessage`). -/
structure Turn where
  role : Role
  content : String
deriving DecidableEq, Repr

/-- The analysis dictionary produced by `Chatter._create_default_analysis`. -/
structure QueryAnalysis where
  is_relevant : Bool
  reformulated_query : String
  key_concepts : List String
  query_type : String
  confidence : ℚ
deriving DecidableEq, Repr

/-! ## Retriever (`src/backend/retriever.py`) -/

/-- `self.default_k` of `Retriever`. -/
def default_k : ℤ := 5

/-- `self.max_k` of `Retriever`. -/
def max_k : ℤ := 10

/-- The set (deduplicated list) of lowercased whitespace-separated words of a
string: `set(text.lower().split())`. -/
def wordSet (s : String) : List String := (pyWords (pyLower s)).dedup

/-- The list `overlap_scores` of `calculate_relevance_score`: for each
document whose word set is non-empty, the fraction of the query's words that
occur among the document's words. -/
def overlapScores (docs : List Doc) (query : String) : List ℚ :=
  docs.filterMap (fun d =>
    let doc_words := wordSet d.page_content
    if ¬ doc_words.isEmpty then
      some ((((wordSet query).filter (fun w => w ∈ doc_words)).length : ℚ) /
        ((wordSet query).length : ℚ))
    else none)

/-- The `overlap_score` of `calculate_relevance_score`: the mean of
`overlapScores`, or `0.0` when that list is empty. -/
def overlapScoreOf (docs : List Doc) (query : String) : ℚ :=
  if (overlapScores docs query).isEmpty then 0
  else (overlapScores docs query).sum / ((overlapScores docs query).length : ℚ)

/-- `Retriever.calculate_relevance_score`.  Returns `0.0` for an empty list;
otherwise combines a content-length signal, a count signal and a lexical
overlap signal with weights 0.3/0.3/0.4 and caps the sum at 1.0.  When the
query has no words and some document has words, the Python code divides by
`len(query_words) = 0`; the resulting `ZeroDivisionError` is caught by the
surrounding `try`/`except`, which returns the fallback score `0.5`. -/
def calculate_relevance_score (docs : List Doc) (query : String) : ℚ :=
  if docs.isEmpty then 0
  else if (wordSet query).isEmpty ∧
      docs.any (fun d => ¬ (wordSet d.page_content).isEmpty) then
    1/2
  else
    let total_content_length : ℚ := ((docs.map (fun d => d.page_content.length)).sum : ℚ)
    let avg_content_length : ℚ := total_content_length / (docs.length : ℚ)
    let content_score : ℚ := pyMin (avg_content_length / 500) 1
    let count_score : ℚ := pyMin ((docs.length : ℚ) / (default_k : ℚ)) 1
    let overlap_score : ℚ := overlapScoreOf docs query
    pyMin (content_score * (3/10) + count_score * (3/10) + overlap_score * (4/10)) 1

/-- The clamping of the requested `k` in `Retriever.retrieve`: `None` becomes
`default_k`, anything else is forced into `[1, max_k]` by
`min(max(1, k), self.max_k)`. -/
def clampK (k : Option ℤ) : ℤ :=
  match k with
  | none => default_k
  | some k => pyMinI (pyMaxI 1 k) max_k

/-- `Retriever.retrieve`.  The FAISS index is abstracted as
`search : query → k → fetch_k → Option (List Doc)`, where `none` models
`similarity_search` raising (caught, yielding `[]`).  `loaded` models
`self.docsearch is not None`; an unloaded store short-circuits to `[]`, as
does a blank query.  The relevance score computed on the result is only
logged and does not affect the return value. -/
def retrieve (search : String → ℤ → ℤ → Option (List Doc)) (loaded : Bool)
    (query : String) (k : Option ℤ) : List Doc :=
  if ¬ loaded then []
  else if pyStrip query = "" then []
  else
    let k' := clampK k
    match search query k' (pyMinI (k' * 2) max_k) with
    | none => []
    | some docs => docs

/-! ## Chatter (`src/backend/chatter.py`) -/

/-- The `eu_ai_keywords` list of `_create_default_analysis`. -/
def eu_ai_keywords : List String :=
  ["eu ai act", "artificial intelligence", "ai regulation", "european union",
   "ai system", "risk", "compliance", "regulation", "legal", "law"]

/-- The `follow_up_indicators` list of `_create_default_analysis`. -/
def follow_up_indicators : List String :=
  ["example", "examples", "instance", "instances", "case", "cases",
   "what about", "how about", "tell me more", "explain", "clarify",
   "that", "this", "it", "them", "those", "these",
   "more", "detailed", "detailed explanation", "more detailed",
   "expand", "elaborate", "further", "additional", "extra",
   "go on", "continue", "what else", "anything else",
   "specifically", "in detail", "at length", "comprehensive"]

/-- The example-request words tested for the first reformulation template. -/
def analysis_example_words : List String := ["example", "examples", "instance", "case"]

/-- The detail-request words tested for the second reformulation template. -/
def analysis_detail_words : List String :=
  ["more", "detailed", "expand", "elaborate", "further"]

/-- The comparative words tested for the third reformulation template. -/
def analysis_what_about_words : List String := ["what about", "how about"]

/-- `recent_context` as accumulated in `_create_default_analysis`: the
contents of the last 4 messages, each followed by a single space. -/
def recentContext (chat_history : List Turn) : String :=
  (chat_history.drop (chat_history.length - 4)).foldl
    (fun acc m => acc ++ m.content ++ " ") ""

/-- `Chatter._create_default_analysis` (written here without the leading
underscore): the heuristic query analysis.  A query containing a follow-up
indicator, analysed with a non-empty history, is marked relevant with
query type `follow_up` and a template-reformulated query; otherwise
relevance is decided by the domain-keyword list, with the query passed
through unchanged. -/
def create_default_analysis (query : String) (chat_history : List Turn) :
    QueryAnalysis :=
  let query_lower := pyLower query
  let is_follow_up := follow_up_indicators.any (fun i => pyContains query_lower i)
  if is_follow_up ∧ ¬ chat_history.isEmpty then
    let recent_context := recentContext chat_history
    let reformulated_query :=
      if analysis_example_words.any (fun w => pyContains query_lower w) then
        "examples of " ++ pyStrip recent_context
      else if analysis_detail_words.any (fun w => pyContains query_lower w) then
        "detailed explanation of " ++ pyStrip recent_context
      else if analysis_what_about_words.any (fun w => pyContains query_lower w) then
        query ++ " in context of " ++ pyStrip recent_context
      else
        query ++ " in context of " ++ pyStrip recent_context
    { is_relevant := true
      reformulated_query := reformulated_query
      key_concepts := ["follow_up", "context"]
      query_type := "follow_up"
      confidence := 8/10 }
  else
    { is_relevant := eu_ai_keywords.any (fun kw => pyContains query_lower kw)
      reformulated_query := query
      key_concepts := []
      query_type := "factual"
      confidence := 7/10 }

/-- `Chatter.preprocess_query`: strip the query, reject a blank one with the
`"Empty query provided"` error, otherwise run the heuristic analysis on the
stripped query against the conversation memory. -/
def preprocess_query (query : String) (memory : List Turn) :
    Except String QueryAnalysis :=
  let q := pyStrip query
  if q = "" then Except.error "Empty query provided"
  else Except.ok (create_default_analysis q memory)

/-- The example indicators tested by `retrieve_context` before its broader
re-search. -/
def ctx_example_indicators : List String := ["example", "examples", "instance", "case"]

/-- The detail indicators tested by `retrieve_context` before its doubled-k
re-search. -/
def ctx_detail_indicators : List String :=
  ["detailed", "more", "expand", "elaborate", "further"]

/-- The `broader_query` of `retrieve_context`: the query with every
occurrence of `"example"`, then of `"examples"`, removed, then stripped. -/
def broaderQuery (query : String) : String :=
  pyStrip (pyRemove (pyRemove query "example") "examples")

/-- The document list `retrieve_context` ends up with after its retry logic:
the first search's result if non-empty; otherwise, a re-search with the
broader query (only when that is non-blank) for example-flavoured queries,
or a re-search with `k * 2` for detail-flavoured ones.  `retr` abstracts
`self.retriever.retrieve`. -/
def docsAfterRetry (retr : String → ℤ → List Doc) (query : String) (k : ℤ) :
    List Doc :=
  let docs := retr query k
  if docs.isEmpty then
    if ctx_example_indicators.any (fun i => pyContains (pyLower query) i) then
      if broaderQuery query ≠ "" then retr (broaderQuery query) k else docs
    else if ctx_detail_indicators.any (fun i => pyContains (pyLower query) i) then
      retr query (k * 2)
    else docs
  else docs

/-- `Chatter.retrieve_context`: the retried document list together with the
relevance score `min(len(docs) / k, 1.0)`, or `([], 0.0)` when even the
retry found nothing.  (The `context` string built inside the Python function
is dead code — it is recomputed by `chat` — and is omitted.) -/
def retrieve_context (retr : String → ℤ → List Doc) (query : String)
    (k : ℤ := 5) : List Doc × ℚ :=
  let docs := docsAfterRetry retr query k
  if docs.isEmpty then ([], 0)
  else (docs, pyMin ((docs.length : ℚ) / (k : ℚ)) 1)

/-- The fixed apology returned when response generation raises. -/
def apologyMessage : String :=
  "I apologize, but I encountered an error while processing your request. Please try again."

/-- `Chatter.generate_response`: run the QA chain, then the formatting
chain, on its output; if either invocation fails (oracle returns `none`,
modelling a raised exception) the fixed apology string is returned. -/
def generate_response (qa : String → String → List Turn → Option String)
    (fmt : String → Option String) (query context : String)
    (chat_history : List Turn) : String :=
  match qa query context chat_history with
  | none => apologyMessage
  | some draft =>
    match fmt draft with
    | none => apologyMessage
    | some formatted => formatted

/-- `Chatter.handle_irrelevant_query`: the fixed out-of-scope template with
the query interpolated. -/
def handle_irrelevant_query (query : String) : String :=
  "I understand you\x27re asking about \"" ++ query ++
  "\", but I\x27m specifically designed to help with questions related to the documents in my knowledge base. \n\n        I can help you with:\n        - Questions about the content in my knowledge base\n        - Information retrieval from the available documents\n        - Clarifications about specific topics covered in the documents\n\n        Could you please rephrase your question to be more specific to the content I have access to, or ask me what topics I can help you with?"

/-- The placeholder context used when retrieval scored zero. -/
def noInfoContext : String := "No relevant information found in the knowledge base."

/-- The `conversation_stats` counters of `Chatter` (the wall-clock
`start_time` is omitted). -/
structure ConversationStats where
  total_queries : ℕ
  successful_retrievals : ℕ
  failed_retrievals : ℕ
deriving DecidableEq, Repr

/-- The mutable state of a `Chatter`: the conversation memory and the
statistics counters. -/
structure ChatState where
  memory : List Turn
  stats : ConversationStats
deriving DecidableEq, Repr

/-- The structured result dictionary of `Chatter.chat`.  Keys that are
absent from the Python dictionary on some paths are modelled as `Option`
fields holding `none` there. -/
structure ChatResult where
  response : String
  success : Bool
  query_analysis : Option QueryAnalysis
  context_used : Option Bool
  relevance_score : Option ℚ
  documents_retrieved : Option ℕ
  error : Option String
deriving DecidableEq, Repr

/-- `Chatter.chat`.  Oracles: `retr` is `self.retriever.retrieve`, `qa` the
QA chain, `fmt` the formatting chain (`none` = raised exception).  Returns
the result dictionary together with the updated chatter state. -/
def chat (retr : String → ℤ → List Doc)
    (qa : String → String → List Turn → Option String)
    (fmt : String → Option String) (s : ChatState) (query : String) :
    ChatResult × ChatState :=
  let stats1 := { s.stats with total_queries := s.stats.total_queries + 1 }
  match preprocess_query query s.memory with
  | Except.error e =>
    ({ response := "I\x27m sorry, but I couldn\x27t process your query: " ++ e
       success := false
       query_analysis := none
       context_used := none
       relevance_score := none
       documents_retrieved := none
       error := some e },
     { s with stats := stats1 })
  | Except.ok analysis =>
    if ¬ analysis.is_relevant then
      ({ response := handle_irrelevant_query query
         success := true
         query_analysis := some analysis
         context_used := some false
         relevance_score := none
         documents_retrieved := none
         error := none },
       { s with stats := stats1 })
    else
      let dr := retrieve_context retr analysis.reformulated_query 5
      let docs := dr.1
      let relevance_score := dr.2
      let stats2 :=
        if relevance_score > 0 then
          { stats1 with successful_retrievals := stats1.successful_retrievals + 1 }
        else
          { stats1 with failed_retrievals := stats1.failed_retrievals + 1 }
      let context :=
        if relevance_score > 0 then
          String.intercalate "\n\n" (docs.map (fun d => d.page_content))
        else noInfoContext
      let chat_history := s.memory
      let response := generate_response qa fmt query context chat_history
      let memory2 := s.memory ++ [⟨Role.user, query⟩, ⟨Role.assistant, response⟩]
      ({ response := response
         success := true
         query_analysis := some analysis
         context_used := some (relevance_score > 0)
         relevance_score := some relevance_score
         documents_retrieved := some docs.length
         error := none },
       { memory := memory2, stats := stats2 })

/-! ## Daily counter (`src/backend/app.py`) -/

/-- `DAILY_LIMIT` of `app.py`. -/
def DAILY_LIMIT : ℕ := 20

/-- The process-wide daily counter state: `daily_counter` and
`current_date` (initially `None`). -/
structure DailyCounterState where
  daily_counter : ℕ
  current_date : Option ℤ
deriving DecidableEq, Repr

/-- `get_daily_counter`: reset the counter and update the stored day if the
calendar day changed, then return the (possibly reset) counter together
with the updated state. -/
def get_daily_counter (s : DailyCounterState) (today : ℤ) :
    ℕ × DailyCounterState :=
  if s.current_date ≠ some today then (0, ⟨0, some today⟩)
  else (s.daily_counter, s)

/-- `increment_daily_counter`: the same rollover check, then increment;
returns the new count and the updated state. -/
def increment_daily_counter (s : DailyCounterState) (today : ℤ) :
    ℕ × DailyCounterState :=
  let s' := if s.current_date ≠ some today then (⟨0, some today⟩ : DailyCounterState) else s
  (s'.daily_counter + 1, ⟨s'.daily_counter + 1, s'.current_date⟩)

/-- `check_daily_limit`: rollover-aware read, then compare against
`DAILY_LIMIT`. -/
def check_daily_limit (s : DailyCounterState) (today : ℤ) :
    Bool × DailyCounterState :=
  let cs := get_daily_counter s today
  (cs.1 < DAILY_LIMIT, cs.2)

/-- `n` successive calls of `increment_daily_counter` on day `today`,
keeping only the final state. -/
def recordN (s : DailyCounterState) (today : ℤ) : ℕ → DailyCounterState
  | 0 => s
  | n + 1 => increment_daily_counter (recordN s today n) today |>.2

/-! ## Helper lemmas -/

theorem pyMin_le_right (a b : ℚ) : pyMin a b ≤ b := by
  rw [pyMin_eq_min]; exact min_le_right a b

theorem pyMin_le_pyMin_left {a b : ℚ} (c : ℚ) (h : a ≤ b) : pyMin a c ≤ pyMin b c := by
  rw [pyMin_eq_min, pyMin_eq_min]
  exact min_le_min h le_rfl

/-- After at least one `record` on day `d`, the stored day is `d` and the
counter is the rolled-over starting value plus the number of records. -/
theorem recordN_succ_eq (s : DailyCounterState) (d : ℤ) (n : ℕ) :
    recordN s d (n + 1) =
      ⟨(if s.current_date = some d then s.daily_counter else 0) + (n + 1), some d⟩ := by
  induction n with
  | zero =>
    simp only [recordN, increment_daily_counter]
    by_cases h : s.current_date = some d <;> simp [h]
  | succ m ih =>
    show (increment_daily_counter (recordN s d (m + 1)) d).2 = _
    rw [ih]
    simp [increment_daily_counter]
    ring

/-! ## C7: the daily rate limiter -/

/-- C7 — The rate limiter's admit (`check_daily_limit`) returns `false` once
record (`increment_daily_counter`) has run `DAILY_LIMIT` times on the same
calendar day, returns `true` again immediately on a different day, and both
operations perform the day-rollover check (reset to 0, update the stored
day) before reading or incrementing the count. -/
theorem c7_daily_limit_behaviour (s : DailyCounterState) (d d' : ℤ) (hd : d' ≠ d) :
    (check_daily_limit (recordN s d DAILY_LIMIT) d).1 = false
    ∧ (check_daily_limit (recordN s d DAILY_LIMIT) d').1 = true
    ∧ (∀ (t : DailyCounterState) (day : ℤ),
        (check_daily_limit t day).1 =
          decide ((if t.current_date = some day then t.daily_counter else 0) < DAILY_LIMIT)
        ∧ (increment_daily_counter t day).1 =
          (if t.current_date = some day then t.daily_counter else 0) + 1
        ∧ (increment_daily_counter t day).2 =
          ⟨(if t.current_date = some day then t.daily_counter else 0) + 1, some day⟩) := by
  have hrec : recordN s d DAILY_LIMIT =
      ⟨(if s.current_date = some d then s.daily_counter else 0) + DAILY_LIMIT, some d⟩ :=
    recordN_succ_eq s d 19
  refine ⟨?_, ?_, ?_⟩
  · rw [hrec]
    simp [check_daily_limit, get_daily_counter, DAILY_LIMIT]
  · rw [hrec]
    simp [check_daily_limit, get_daily_counter, DAILY_LIMIT, Ne.symm hd]
  · intro t day
    refine ⟨?_, ?_, ?_⟩
    · by_cases h : t.current_date = some day <;>
        simp [check_daily_limit, get_daily_counter, h]
    · by_cases h : t.current_date = some day <;>
        simp [increment_daily_counter, h]
    · by_cases h : t.current_date = some day <;>
        simp [increment_daily_counter, h]

/-- Witness for C7 at a concrete state and pair of days. -/
theorem c7_witness :
    (1 : ℤ) ≠ 0
    ∧ (check_daily_limit (recordN ⟨0, none⟩ 0 DAILY_LIMIT) 0).1 = false
    ∧ (check_daily_limit (recordN ⟨0, none⟩ 0 DAILY_LIMIT) 1).1 = true := by
  have h := c7_daily_limit_behaviour ⟨0, none⟩ 0 1 (by decide)
  exact ⟨by decide, h.1, h.2.1⟩

/-! ## C8: k-clamping and degraded retrieval -/

/-- C8 — `retrieve` clamps the requested `k` into `[1, max_k]` silently
(retrieving with any `k` is retrieving with the clamped `k`), and when the
index was never loaded it returns the empty list instead of failing. -/
theorem c8_retrieve_clamps_k_and_degrades
    (search : String → ℤ → ℤ → Option (List Doc)) (q : String) (k : Option ℤ) :
    (1 ≤ clampK k ∧ clampK k ≤ max_k)
    ∧ retrieve search false q k = []
    ∧ retrieve search true q k = retrieve search true q (some (clampK k)) := by
  have hclamp : 1 ≤ clampK k ∧ clampK k ≤ max_k := by
    cases k with
    | none => exact ⟨by decide, by decide⟩
    | some k =>
      simp only [clampK, pyMinI, pyMaxI, max_k]
      constructor
      all_goals split_ifs
      all_goals omega
  have hidem : clampK (some (clampK k)) = clampK k := by
    obtain ⟨h1, h2⟩ := hclamp
    simp only [clampK, pyMinI, pyMaxI, max_k] at h1 h2 ⊢
    split_ifs at h1 h2 ⊢
    all_goals omega
  refine ⟨hclamp, by simp [retrieve], ?_⟩
  simp only [retrieve, hidem]

/-! ## C1: generation failure -/

/-- C1 counterexample — with a relevant query, a successful retrieval and a
failing QA model invocation, `chat` substitutes the fixed apology string and
continues, but the conversation memory IS updated: the user turn and the
apology turn are appended, and the result is even marked successful.  This
refutes the claim that the memory is not updated on this path. -/
theorem c1_counterexample :
    (chat (fun q _ => if q = "risk" then [⟨"hello", []⟩] else [])
        (fun _ _ _ => none) some ⟨[], ⟨0, 0, 0⟩⟩ "risk").1.response = apologyMessage
    ∧ (chat (fun q _ => if q = "risk" then [⟨"hello", []⟩] else [])
        (fun _ _ _ => none) some ⟨[], ⟨0, 0, 0⟩⟩ "risk").2.memory =
        [⟨Role.user, "risk"⟩, ⟨Role.assistant, apologyMessage⟩]
    ∧ (chat (fun q _ => if q = "risk" then [⟨"hello", []⟩] else [])
        (fun _ _ _ => none) some ⟨[], ⟨0, 0, 0⟩⟩ "risk").1.success = true := by
  have h5 : ("hello" : String).length = 5 := rfl
  refine ⟨?_, ?_, ?_⟩ <;>
    simp [chat, preprocess_query, create_default_analysis, pyStrip, stripList, pySpace,
      pyLower, pyLowerChar, pyContains, containsList, follow_up_indicators, eu_ai_keywords,
      retrieve_context, docsAfterRetry, generate_response, pyMin, h5]

/-- C1 amended — when the QA model invocation fails during response
generation under a relevant analysis, `chat` substitutes the fixed apology
string and the request continues non-fatally, but the conversation memory IS
updated on this path: the user turn and the apology assistant turn are
appended, and the result is marked successful. -/
theorem c1_amended_generation_failure_still_appends_memory
    (retr : String → ℤ → List Doc) (fmt : String → Option String)
    (s : ChatState) (q : String) (a : QueryAnalysis)
    (h : preprocess_query q s.memory = Except.ok a) (hrel : a.is_relevant = true) :
    (chat retr (fun _ _ _ => none) fmt s q).1.response = apologyMessage
    ∧ (chat retr (fun _ _ _ => none) fmt s q).1.success = true
    ∧ (chat retr (fun _ _ _ => none) fmt s q).2.memory =
        s.memory ++ [⟨Role.user, q⟩, ⟨Role.assistant, apologyMessage⟩] := by
  unfold chat
  rw [h]
  simp [hrel, generate_response]

/-- Witness for C1 amended at a concrete oracle, state and query. -/
theorem c1_amended_witness :
    preprocess_query "risk" ([] : List Turn) =
      Except.ok ⟨true, "risk", [], "factual", 7/10⟩
    ∧ (chat (fun _ _ => []) (fun _ _ _ => none) some ⟨[], ⟨0, 0, 0⟩⟩ "risk").2.memory =
        [⟨Role.user, "risk"⟩, ⟨Role.assistant, apologyMessage⟩] := by
  have hpre : preprocess_query "risk" ([] : List Turn) =
      Except.ok ⟨true, "risk", [], "factual", 7/10⟩ := by
    simp [preprocess_query, create_default_analysis, pyStrip, stripList, pySpace,
      pyLower, pyLowerChar, pyContains, containsList, List.isPrefixOf, follow_up_indicators, eu_ai_keywords]
  have h := c1_amended_generation_failure_still_appends_memory
    (fun _ _ => []) some ⟨[], ⟨0, 0, 0⟩⟩ "risk" ⟨true, "risk", [], "factual", 7/10⟩ hpre rfl
  exact ⟨hpre, h.2.2⟩

/-! ## C3: memory frame of the success path -/

/-- C3 — for a non-empty query whose analysis is relevant and whose
retrieval yields a non-empty document list, `chat` appends exactly two turns
to the conversation memory, the user turn first and the assistant turn
second; and it appends nothing on the non-success paths (blank query, or a
query classified irrelevant). -/
theorem c3_chat_appends_exactly_two_turns
    (retr : String → ℤ → List Doc) (qa : String → String → List Turn → Option String)
    (fmt : String → Option String) (s : ChatState) (q : String) (a : QueryAnalysis)
    (h : preprocess_query q s.memory = Except.ok a) (hrel : a.is_relevant = true)
    (_hdocs : ¬ (retrieve_context retr a.reformulated_query 5).1.isEmpty) :
    (chat retr qa fmt s q).2.memory =
      s.memory ++ [⟨Role.user, q⟩, ⟨Role.assistant, (chat retr qa fmt s q).1.response⟩]
    ∧ (∀ (s' : ChatState) (q' : String), pyStrip q' = "" →
        (chat retr qa fmt s' q').2.memory = s'.memory)
    ∧ (∀ (s' : ChatState) (q' : String) (a' : QueryAnalysis),
        preprocess_query q' s'.memory = Except.ok a' → a'.is_relevant = false →
        (chat retr qa fmt s' q').2.memory = s'.memory) := by
  refine ⟨?_, ?_, ?_⟩
  · unfold chat
    rw [h]
    simp [hrel]
  · intro s' q' hblank
    unfold chat
    simp [preprocess_query, hblank]
  · intro s' q' a' h' hrel'
    unfold chat
    rw [h']
    simp [hrel']

/-- Witness for C3 at a concrete oracle, state and query. -/
theorem c3_witness :
    preprocess_query "risk" ([] : List Turn) =
      Except.ok ⟨true, "risk", [], "factual", 7/10⟩
    ∧ ¬ (retrieve_context (fun q _ => if q = "risk" then [⟨"hello", []⟩] else [])
          "risk" 5).1.isEmpty
    ∧ (chat (fun q _ => if q = "risk" then [⟨"hello", []⟩] else [])
          (fun _ _ _ => some "draft") (fun _ => some "answer")
          ⟨[], ⟨0, 0, 0⟩⟩ "risk").2.memory =
        [⟨Role.user, "risk"⟩,
         ⟨Role.assistant,
          (chat (fun q _ => if q = "risk" then [⟨"hello", []⟩] else [])
            (fun _ _ _ => some "draft") (fun _ => some "answer")
            ⟨[], ⟨0, 0, 0⟩⟩ "risk").1.response⟩] := by
  have hpre : preprocess_query "risk" ([] : List Turn) =
      Except.ok ⟨true, "risk", [], "factual", 7/10⟩ := by
    simp [preprocess_query, create_default_analysis, pyStrip, stripList, pySpace,
      pyLower, pyLowerChar, pyContains, containsList, List.isPrefixOf, follow_up_indicators, eu_ai_keywords]
  have hdocs : ¬ (retrieve_context (fun q _ => if q = "risk" then [⟨"hello", []⟩] else [])
      "risk" 5).1.isEmpty := by
    simp [retrieve_context, docsAfterRetry]
  have h := c3_chat_appends_exactly_two_turns
    (fun q _ => if q = "risk" then [⟨"hello", []⟩] else [])
    (fun _ _ _ => some "draft") (fun _ => some "answer")
    ⟨[], ⟨0, 0, 0⟩⟩ "risk" ⟨true, "risk", [], "factual", 7/10⟩ hpre rfl hdocs
  exact ⟨hpre, hdocs, h.1⟩

/-! ## C9: irrelevant queries -/

/-- C9 — for a query the analyzer classifies as not relevant, `chat` returns
the fixed out-of-scope template (with the query interpolated),
`context_used = false`, marks the call successful, and leaves the
conversation memory exactly as it was. -/
theorem c9_irrelevant_query_frame
    (retr : String → ℤ → List Doc) (qa : String → String → List Turn → Option String)
    (fmt : String → Option String) (s : ChatState) (q : String) (a : QueryAnalysis)
    (h : preprocess_query q s.memory = Except.ok a) (hrel : a.is_relevant = false) :
    (chat retr qa fmt s q).1.response = handle_irrelevant_query q
    ∧ (chat retr qa fmt s q).1.context_used = some false
    ∧ (chat retr qa fmt s q).1.success = true
    ∧ (chat retr qa fmt s q).2.memory = s.memory := by
  unfold chat
  rw [h]
  simp [hrel]

/-- Witness for C9 at a concrete irrelevant query. -/
theorem c9_witness :
    preprocess_query "hello" ([] : List Turn) =
      Except.ok ⟨false, "hello", [], "factual", 7/10⟩
    ∧ (chat (fun _ _ => []) (fun _ _ _ => some "x") some ⟨[], ⟨0, 0, 0⟩⟩ "hello").2.memory = []
    ∧ (chat (fun _ _ => []) (fun _ _ _ => some "x") some
        ⟨[], ⟨0, 0, 0⟩⟩ "hello").1.context_used = some false := by
  have hpre : preprocess_query "hello" ([] : List Turn) =
      Except.ok ⟨false, "hello", [], "factual", 7/10⟩ := by
    simp [preprocess_query, create_default_analysis, pyStrip, stripList, pySpace,
      pyLower, pyLowerChar, pyContains, containsList, List.isPrefixOf, follow_up_indicators, eu_ai_keywords]
  have h := c9_irrelevant_query_frame (fun _ _ => []) (fun _ _ _ => some "x") some
    ⟨[], ⟨0, 0, 0⟩⟩ "hello" ⟨false, "hello", [], "factual", 7/10⟩ hpre rfl
  exact ⟨hpre, h.2.2.2, h.2.1⟩

/-! ## C4: the heuristic query analyzer -/

/-- C4 — for a non-blank query, the analyzer returns: when the (stripped,
lowercased) query contains a follow-up indicator and the history is
non-empty, `is_relevant = true`, `query_type = "follow_up"`,
`confidence = 0.8`, with the reformulated query built from the last 4 turns'
concatenated content by the sub-intent template (example words give
`examples of {recent_context}`, detail words `detailed explanation of
{recent_context}`, and anything else — the `what about` case included —
`{query} in context of {recent_context}`); otherwise `is_relevant` is
whether some fixed domain keyword occurs in the query,
`query_type = "factual"`, `confidence = 0.7`, and the reformulated query is
the (stripped) query unchanged. -/
theorem c4_default_analysis_behaviour (q : String) (hist : List Turn)
    (hq : ¬ pyStrip q = "") :
    preprocess_query q hist = Except.ok (
      if follow_up_indicators.any (fun i => pyContains (pyLower (pyStrip q)) i)
          ∧ ¬ hist.isEmpty then
        { is_relevant := true
          reformulated_query :=
            if analysis_example_words.any (fun w => pyContains (pyLower (pyStrip q)) w) then
              "examples of " ++ pyStrip (recentContext hist)
            else if analysis_detail_words.any (fun w => pyContains (pyLower (pyStrip q)) w) then
              "detailed explanation of " ++ pyStrip (recentContext hist)
            else
              pyStrip q ++ " in context of " ++ pyStrip (recentContext hist)
          key_concepts := ["follow_up", "context"]
          query_type := "follow_up"
          confidence := 8/10 }
      else
        { is_relevant := eu_ai_keywords.any (fun kw => pyContains (pyLower (pyStrip q)) kw)
          reformulated_query := pyStrip q
          key_concepts := []
          query_type := "factual"
          confidence := 7/10 }) := by
  unfold preprocess_query
  rw [if_neg hq]
  unfold create_default_analysis
  by_cases h1 : (follow_up_indicators.any (fun i => pyContains (pyLower (pyStrip q)) i) : Prop)
      ∧ ¬ hist.isEmpty
  · rw [if_pos h1, if_pos h1]
    by_cases h2 : (analysis_example_words.any
        (fun w => pyContains (pyLower (pyStrip q)) w) : Prop)
    · simp [h2]
    · by_cases h3 : (analysis_detail_words.any
          (fun w => pyContains (pyLower (pyStrip q)) w) : Prop)
      · simp [h2, h3]
      · by_cases h4 : (analysis_what_about_words.any
            (fun w => pyContains (pyLower (pyStrip q)) w) : Prop)
        · simp [h2, h3, h4]
        · simp [h2, h3, h4]
  · rw [if_neg h1, if_neg h1]

/-- Witness for C4: the spec's own test vector — a follow-up query with a
non-empty history lands in the `examples of …` template. -/
theorem c4_witness :
    ¬ pyStrip "Can you give me an example?" = ""
    ∧ preprocess_query "Can you give me an example?" [⟨Role.assistant, "hi"⟩] =
        Except.ok ⟨true, "examples of hi", ["follow_up", "context"], "follow_up", 8/10⟩ := by
  constructor
  · simp [pyStrip, stripList, pySpace]
  · rw [c4_default_analysis_behaviour "Can you give me an example?" [⟨Role.assistant, "hi"⟩]
      (by simp [pyStrip, stripList, pySpace])]
    simp [follow_up_indicators, analysis_example_words, pyStrip, stripList, pySpace,
      pyLower, pyLowerChar, pyContains, containsList, List.isPrefixOf, recentContext]

/-! ## Scorer lemmas -/

theorem mem_overlapScores_le_one (docs : List Doc) (q : String) :
    ∀ x ∈ overlapScores docs q, x ≤ 1 := by
  intro x hx
  rw [overlapScores, List.mem_filterMap] at hx
  obtain ⟨d, _, hd⟩ := hx
  by_cases hw : ((wordSet d.page_content).isEmpty : Prop)
  · simp [hw] at hd
  · simp only [hw, Bool.not_eq_true, if_pos, Option.some_inj] at hd
    rw [← hd]
    apply div_le_one_of_le₀
    · exact_mod_cast List.length_filter_le _ _
    · positivity

theorem sum_div_length_le_one (l : List ℚ) (h : ∀ x ∈ l, x ≤ 1) :
    l.sum / (l.length : ℚ) ≤ 1 := by
  apply div_le_one_of_le₀
  · calc l.sum ≤ l.length • (1 : ℚ) := List.sum_le_card_nsmul l 1 h
      _ = (l.length : ℚ) := by simp
  · positivity

theorem overlapScoreOf_le_one (docs : List Doc) (q : String) :
    overlapScoreOf docs q ≤ 1 := by
  unfold overlapScoreOf
  split_ifs with h
  · norm_num
  · exact sum_div_length_le_one _ (mem_overlapScores_le_one docs q)

/-! ## C5: the weighted relevance formula -/

/-- Modelled from the claim's words (C5): the lexical query–document overlap
ratio averaged across ALL documents of the list (the source instead skips
documents whose word set is empty when averaging). -/
def claimed_overlap_across_documents (docs : List Doc) (query : String) : ℚ :=
  ((docs.map (fun d =>
    (((wordSet query).filter (fun w => w ∈ wordSet d.page_content)).length : ℚ) /
      ((wordSet query).length : ℚ))).sum) / (docs.length : ℚ)

/-- Modelled from the claim's words (C5): 0.3 times the capped normalized
average content length, plus 0.3 times the capped count ratio, plus 0.4
times the overlap ratio averaged across all documents; 0.0 for an empty
list. -/
def claimed_relevance_score (docs : List Doc) (query : String) : ℚ :=
  if docs.isEmpty then 0
  else
    min ((((docs.map (fun d => d.page_content.length)).sum : ℚ) / (docs.length : ℚ)) / 500) 1
        * (3/10)
      + min ((docs.length : ℚ) / (default_k : ℚ)) 1 * (3/10)
      + claimed_overlap_across_documents docs query * (4/10)

/-- C5 counterexample — on the document list `["risk", ""]` and query
`"risk"`, the source's score is 1303/2500 (the empty-worded document is
skipped when averaging the overlap signal) while the claimed formula, whose
overlap signal is averaged across all documents, gives 803/2500. -/
theorem c5_counterexample :
    calculate_relevance_score [⟨"risk", []⟩, ⟨"", []⟩] "risk" = 1303/2500
    ∧ claimed_relevance_score [⟨"risk", []⟩, ⟨"", []⟩] "risk" = 803/2500
    ∧ (1303/2500 : ℚ) ≠ 803/2500 := by
  have h4 : ("risk" : String).length = 4 := rfl
  have h0 : ("" : String).length = 0 := rfl
  refine ⟨?_, ?_, by norm_num⟩
  · simp [calculate_relevance_score, wordSet, pyWords, wordsAux, pySpace, pyLower,
      pyLowerChar, overlapScoreOf, overlapScores, pyMin, default_k, h4, h0]
    norm_num
  · simp [claimed_relevance_score, claimed_overlap_across_documents, wordSet, pyWords,
      wordsAux, pySpace, pyLower, pyLowerChar, default_k, h4, h0]
    norm_num

/-- C5 amended — for every document list and every query with at least one
whitespace-separated term, the relevance score equals 0.3 times the average
content length normalized to the 500-character baseline and capped at 1.0,
plus 0.3 times the count ratio against the scorer's default k (5) capped at
1.0, plus 0.4 times the lexical overlap ratio averaged across the documents
with a non-empty word set; and it equals 0.0 for an empty document list.
(A query with no terms together with some document with terms instead takes
the scorer's exception fallback 0.5, and the overlap average skips
empty-worded documents — the two points on which the original claim fails.) -/
theorem c5_amended_weighted_score_formula (docs : List Doc) (q : String)
    (hq : ¬ (wordSet q).isEmpty) :
    calculate_relevance_score docs q =
      if docs.isEmpty then 0
      else
        min ((((docs.map (fun d => d.page_content.length)).sum : ℚ) / (docs.length : ℚ)) / 500) 1
            * (3/10)
          + min ((docs.length : ℚ) / (default_k : ℚ)) 1 * (3/10)
          + overlapScoreOf docs q * (4/10) := by
  unfold calculate_relevance_score
  by_cases hd : (docs.isEmpty : Prop)
  · rw [if_pos hd, if_pos hd]
  · rw [if_neg hd, if_neg hd, if_neg (fun h => hq h.1)]
    have hcs := pyMin_le_right ((((docs.map (fun d => d.page_content.length)).sum : ℚ) /
      (docs.length : ℚ)) / 500) 1
    have hks := pyMin_le_right ((docs.length : ℚ) / (default_k : ℚ)) 1
    have hos := overlapScoreOf_le_one docs q
    rw [pyMin, if_pos (by linarith), pyMin_eq_min, pyMin_eq_min]

/-- Witness for C5 amended at a concrete document list and query. -/
theorem c5_amended_witness :
    ¬ (wordSet "risk").isEmpty
    ∧ calculate_relevance_score [⟨"risk", []⟩, ⟨"", []⟩] "risk" =
        min (((([⟨"risk", []⟩, ⟨"", []⟩] : List Doc).map
              (fun d => d.page_content.length)).sum : ℚ) /
            (([⟨"risk", []⟩, ⟨"", []⟩] : List Doc).length : ℚ) / 500) 1 * (3/10)
          + min ((([⟨"risk", []⟩, ⟨"", []⟩] : List Doc).length : ℚ) / (default_k : ℚ)) 1
            * (3/10)
          + overlapScoreOf [⟨"risk", []⟩, ⟨"", []⟩] "risk" * (4/10) := by
  have hq : ¬ (wordSet "risk").isEmpty := by
    simp [wordSet, pyWords, wordsAux, pySpace, pyLower, pyLowerChar]
  refine ⟨hq, ?_⟩
  have h := c5_amended_weighted_score_formula [⟨"risk", []⟩, ⟨"", []⟩] "risk" hq
  simpa using h

/-! ## C6: monotonicity in the overlap signal -/

/-- C6 — holding the document list (hence the content-length and count
signals) fixed, the relevance score is monotonically non-decreasing in the
lexical-overlap signal, for queries on which that signal is defined (at
least one term); and the score of an empty document list is 0.0. -/
theorem c6_score_monotone_in_overlap (docs : List Doc) (q1 q2 : String)
    (hd : ¬ docs.isEmpty) (h1 : ¬ (wordSet q1).isEmpty) (h2 : ¬ (wordSet q2).isEmpty)
    (hov : overlapScoreOf docs q1 ≤ overlapScoreOf docs q2) :
    calculate_relevance_score docs q1 ≤ calculate_relevance_score docs q2
    ∧ ∀ q, calculate_relevance_score [] q = 0 := by
  constructor
  · unfold calculate_relevance_score
    rw [if_neg hd, if_neg hd, if_neg (fun h => h1 h.1), if_neg (fun h => h2 h.1)]
    exact pyMin_le_pyMin_left 1 (by linarith)
  · intro q
    simp [calculate_relevance_score]

/-- Witness for C6 at a concrete document list and query pair. -/
theorem c6_witness :
    overlapScoreOf [⟨"risk", []⟩] "law risk" ≤ overlapScoreOf [⟨"risk", []⟩] "risk"
    ∧ calculate_relevance_score [⟨"risk", []⟩] "law risk" ≤
        calculate_relevance_score [⟨"risk", []⟩] "risk"
    ∧ calculate_relevance_score [] "x" = 0 := by
  have hov : overlapScoreOf [⟨"risk", []⟩] "law risk" ≤
      overlapScoreOf [⟨"risk", []⟩] "risk" := by
    simp [overlapScoreOf, overlapScores, wordSet, pyWords, wordsAux, pySpace, pyLower,
      pyLowerChar]
    norm_num
  have h := c6_score_monotone_in_overlap [⟨"risk", []⟩] "law risk" "risk"
    (by simp)
    (by simp [wordSet, pyWords, wordsAux, pySpace, pyLower, pyLowerChar])
    (by simp [wordSet, pyWords, wordsAux, pySpace, pyLower, pyLowerChar])
    hov
  exact ⟨hov, h.1, h.2 "x"⟩

/-! ## C2: which score the orchestrator uses -/

/-- C2 counterexample — `chat` on the relevant query `"risk"`, whose
retrieval returns the single document `"hello"`, reports the relevance score
1/5 (the bare count ratio computed by `retrieve_context`), while the
Relevance Scorer's weighted 0.3/0.3/0.4 combination on the same documents
and query is 63/1000.  The score the orchestrator branches on and returns is
therefore not the scorer's output. -/
theorem c2_counterexample :
    (chat (fun q _ => if q = "risk" then [⟨"hello", []⟩] else [])
        (fun _ _ _ => some "draft") (fun _ => some "answer")
        ⟨[], ⟨0, 0, 0⟩⟩ "risk").1.relevance_score = some (1/5)
    ∧ calculate_relevance_score [⟨"hello", []⟩] "risk" = 63/1000
    ∧ ((1 : ℚ)/5) ≠ 63/1000 := by
  have h5 : ("hello" : String).length = 5 := rfl
  refine ⟨?_, ?_, by norm_num⟩
  · simp [chat, preprocess_query, create_default_analysis, pyStrip, stripList, pySpace,
      pyLower, pyLowerChar, pyContains, containsList, List.isPrefixOf,
      follow_up_indicators, eu_ai_keywords, retrieve_context, docsAfterRetry,
      generate_response, pyMin, h5]
    norm_num
  · simp [calculate_relevance_score, wordSet, pyWords, wordsAux, pySpace, pyLower,
      pyLowerChar, overlapScoreOf, overlapScores, pyMin, default_k, h5]
    norm_num

/-- C2 amended — the relevance score the orchestrator branches on and
returns from `chat` is the one computed inside `retrieve_context`, namely
the bare count ratio `min(len(docs)/k, 1.0)` for every retrieval with a
non-empty document list; the Relevance Scorer's weighted combination is
computed inside `Retriever.retrieve` only for logging and does not reach the
orchestrator. -/
theorem c2_amended_relevance_is_count_ratio :
    (∀ (retr : String → ℤ → List Doc) (q : String) (k : ℤ),
      ¬ (retrieve_context retr q k).1.isEmpty →
      (retrieve_context retr q k).2 =
        min (((retrieve_context retr q k).1.length : ℚ) / (k : ℚ)) 1)
    ∧ (∀ (retr : String → ℤ → List Doc)
        (qa : String → String → List Turn → Option String)
        (fmt : String → Option String) (s : ChatState) (q : String) (a : QueryAnalysis),
        preprocess_query q s.memory = Except.ok a → a.is_relevant = true →
        (chat retr qa fmt s q).1.relevance_score =
          some ((retrieve_context retr a.reformulated_query 5).2)) := by
  constructor
  · intro retr q k hne
    rw [retrieve_context] at hne ⊢
    by_cases h : ((docsAfterRetry retr q k).isEmpty : Prop)
    · simp [h] at hne
    · simp only [h, if_neg, Bool.false_eq_true, ite_false, pyMin_eq_min]
  · intro retr qa fmt s q a h hrel
    unfold chat
    rw [h]
    simp [hrel]

/-- Witness for C2 amended at a concrete oracle, state and query. -/
theorem c2_amended_witness :
    ¬ (retrieve_context (fun q _ => if q = "risk" then [⟨"hello", []⟩] else [])
        "risk" 5).1.isEmpty
    ∧ (retrieve_context (fun q _ => if q = "risk" then [⟨"hello", []⟩] else [])
        "risk" 5).2 =
        min (((retrieve_context (fun q _ => if q = "risk" then [⟨"hello", []⟩] else [])
          "risk" 5).1.length : ℚ) / ((5 : ℤ) : ℚ)) 1
    ∧ preprocess_query "risk" ([] : List Turn) =
        Except.ok ⟨true, "risk", [], "factual", 7/10⟩
    ∧ (chat (fun q _ => if q = "risk" then [⟨"hello", []⟩] else [])
        (fun _ _ _ => some "draft") (fun _ => some "answer")
        ⟨[], ⟨0, 0, 0⟩⟩ "risk").1.relevance_score =
        some ((retrieve_context (fun q _ => if q = "risk" then [⟨"hello", []⟩] else [])
          "risk" 5).2) := by
  have hne : ¬ (retrieve_context (fun q _ => if q = "risk" then [⟨"hello", []⟩] else [])
      "risk" 5).1.isEmpty := by
    simp [retrieve_context, docsAfterRetry]
  have hpre : preprocess_query "risk" ([] : List Turn) =
      Except.ok ⟨true, "risk", [], "factual", 7/10⟩ := by
    simp [preprocess_query, create_default_analysis, pyStrip, stripList, pySpace,
      pyLower, pyLowerChar, pyContains, containsList, List.isPrefixOf,
      follow_up_indicators, eu_ai_keywords]
  refine ⟨hne, c2_amended_relevance_is_count_ratio.1 _ "risk" 5 hne, hpre,
    c2_amended_relevance_is_count_ratio.2 _ (fun _ _ _ => some "draft")
      (fun _ => some "answer") ⟨[], ⟨0, 0, 0⟩⟩ "risk"
      ⟨true, "risk", [], "factual", 7/10⟩ hpre rfl⟩

/-! ## C10: the empty-retrieval retry -/

/-- The retrieval oracle of the C10 counterexample: it finds one document
for the blank query and nothing otherwise. -/
def c10Oracle : String → ℤ → List Doc :=
  fun q _ => if q = "" then [⟨"d", []⟩] else []

/-- C10 counterexample — on the query `"example"` (which contains an example
indicator) the first search returns nothing and stripping the words
`"example"`/`"examples"` leaves the blank query, so `retrieve_context` does
NOT re-search and returns `([], 0.0)` — even though the re-search the claim
prescribes would have returned a document. -/
theorem c10_counterexample :
    broaderQuery "example" = ""
    ∧ c10Oracle (broaderQuery "example") 5 = [⟨"d", []⟩]
    ∧ retrieve_context c10Oracle "example" 5 = ([], 0) := by
  refine ⟨?_, ?_, ?_⟩
  · simp [broaderQuery, pyRemove, removeAllAux, List.isPrefixOf, pyStrip, stripList, pySpace]
  · simp [broaderQuery, pyRemove, removeAllAux, List.isPrefixOf, pyStrip, stripList, pySpace,
      c10Oracle]
  · simp [retrieve_context, docsAfterRetry, c10Oracle, pyLower, pyLowerChar, pyContains,
      containsList, List.isPrefixOf, ctx_example_indicators, ctx_detail_indicators,
      broaderQuery, pyRemove, removeAllAux, pyStrip, stripList, pySpace]

/-- C10 amended — when the first search returns no documents,
`retrieve_context` retries: with the query stripped of the words
`"example"`/`"examples"` when the query contains an example indicator AND
the stripped query is non-blank (no retry otherwise), or with the document
count doubled when it instead contains a detail indicator; if the retry also
yields nothing it returns `([], 0.0)`. -/
theorem c10_amended_retry_behaviour (retr : String → ℤ → List Doc) (q : String)
    (k : ℤ) (h : retr q k = []) :
    docsAfterRetry retr q k =
      (if ctx_example_indicators.any (fun i => pyContains (pyLower q) i) then
        (if broaderQuery q ≠ "" then retr (broaderQuery q) k else [])
      else if ctx_detail_indicators.any (fun i => pyContains (pyLower q) i) then
        retr q (k * 2)
      else [])
    ∧ (docsAfterRetry retr q k = [] → retrieve_context retr q k = ([], 0)) := by
  constructor
  · rw [docsAfterRetry, h]
    simp
  · intro h2
    rw [retrieve_context, h2]
    simp

/-- Witness for C10 amended: a detail-flavoured query whose retry with
`k * 2` recovers a document. -/
theorem c10_amended_witness :
    (fun (_ : String) (k : ℤ) => if k = 10 then [(⟨"d", []⟩ : Doc)] else []) "more" 5 = []
    ∧ docsAfterRetry (fun (_ : String) (k : ℤ) => if k = 10 then [(⟨"d", []⟩ : Doc)] else [])
        "more" 5 = [⟨"d", []⟩] := by
  have h := c10_amended_retry_behaviour
    (fun (_ : String) (k : ℤ) => if k = 10 then [(⟨"d", []⟩ : Doc)] else []) "more" 5
    (by norm_num)
  refine ⟨by norm_num, ?_⟩
  rw [h.1]
  simp [ctx_example_indicators, ctx_detail_indicators, pyLower, pyLowerChar, pyContains,
    containsList, List.isPrefixOf]

end EUAINav
